import Mathlib

/-
  Verification development for the ticketbottle-payment service.

  Shallow embedding of the payment lifecycle engine, the transactional
  outbox, the provider adapters (ZaloPay, PayOS) and the webhook handlers,
  translated from the TypeScript sources.  External primitives that live
  outside the repository (the crypto HMAC, the JSON decoder, the Kafka
  producer, the PayOS SDK HTTP call) are taken as function parameters, so
  every theorem quantifies over them; dates are modelled as integer
  timestamps.
-/

/- ===================== JavaScript string primitives ===================== -/

/-- JS `parts.length > 1 ? parts[1] : appTransId` style helper: value of a
base-36 digit character, as consumed by `parseInt(s, 36)` (0-9, a-z, A-Z). -/
def base36DigitVal (c : Char) : Option Nat :=
  if c.isDigit then some (c.toNat - 48)
  else if 'A' ≤ c && c ≤ 'Z' then some (c.toNat - 55)
  else if 'a' ≤ c && c ≤ 'z' then some (c.toNat - 87)
  else none

/-- Longest prefix of base-36 digits, folded into a number. -/
def parse36Digits (cs : List Char) (acc : Nat) : Nat :=
  match cs with
  | [] => acc
  | c :: rest =>
    match base36DigitVal c with
    | some v => parse36Digits rest (acc * 36 + v)
    | none => acc

/-- Whether the head of the character list is a valid base-36 digit. -/
def headIsBase36 : List Char → Bool
  | [] => false
  | c :: _ => (base36DigitVal c).isSome

/-- JS `parseInt(s, 36)`: skip leading whitespace, optional sign, then the
longest prefix of base-36 digits; `none` models `NaN` (no digit consumed). -/
def jsParseInt36 (s : String) : Option Int :=
  let cs := s.toList.dropWhile (fun c => c.isWhitespace)
  match cs with
  | '-' :: rest =>
    if headIsBase36 rest then some (-(Int.ofNat (parse36Digits rest 0))) else none
  | '+' :: rest =>
    if headIsBase36 rest then some (Int.ofNat (parse36Digits rest 0)) else none
  | rest =>
    if headIsBase36 rest then some (Int.ofNat (parse36Digits rest 0)) else none

/-- Decimal value of a digit string (used for `parseInt(dateMatch[1], 10)`
where the argument is already known to be 8 decimal digits). -/
def parse10Digits (cs : List Char) (acc : Nat) : Nat :=
  match cs with
  | [] => acc
  | c :: rest => parse10Digits rest (acc * 10 + (c.toNat - 48))

/-- Leftmost run of 8 consecutive decimal digits, as matched by the JS regex
`/(\d{8})/`; returns the 8 matched characters, or `none` when the string
contains no such run. -/
def jsMatchDigits8 (s : String) : Option (List Char) :=
  go s.toList
where
  go : List Char → Option (List Char)
    | [] => none
    | c :: cs =>
      let window := (c :: cs).take 8
      if window.length = 8 && window.all (fun d => d.isDigit) then some window
      else go cs

/-- JS `s.split(sep)` for a one-character separator, over character lists. -/
def splitOnChar (sep : Char) : List Char → List (List Char)
  | [] => [[]]
  | c :: cs =>
    let rest := splitOnChar sep cs
    if c = sep then [] :: rest
    else
      match rest with
      | [] => [[c]]
      | r :: rs => (c :: r) :: rs

/-- Whether `pat` occurs at the start of `cs`. -/
def startsWithPat : List Char → List Char → Bool
  | [], _ => true
  | _ :: _, [] => false
  | p :: ps, c :: cs => p = c && startsWithPat ps cs

/-- Whether `pat` occurs anywhere in `cs`. -/
def containsPat (pat : List Char) : List Char → Bool
  | [] => startsWithPat pat []
  | c :: cs => startsWithPat pat (c :: cs) || containsPat pat cs

/-- JS `s.includes(pat)`. -/
def jsIncludes (s pat : String) : Bool :=
  containsPat pat.toList s.toList

/-- JS `s.substring(0, n)`: the first n characters. -/
def jsSubstringTake (s : String) (n : Nat) : String :=
  String.mk (s.toList.take n)

/-- JS `a || b` on an optional string: `undefined`/`null` and the empty
string fall through to the right operand. -/
def jsOrString (a : Option String) (b : String) : String :=
  match a with
  | some s => if s = "" then b else s
  | none => b

/-- JS `mapping[k] || null` applied to a property that may itself hold
`undefined`: the empty string and absence both collapse to `null`. -/
def jsOrNull (o : Option String) : Option String :=
  match o with
  | some t => if t = "" then none else some t
  | none => none

/- ===================== PayOS gateway ===================== -/

/-- Input of PaymentGatewayInterface.createPaymentLink. -/
structure CreatePaymentLinkInput where
  amount : Int
  orderCode : String
  currency : String
  idempotencyKey : String
  redirectUrl : String
  timeoutSeconds : Int
deriving DecidableEq, Repr

namespace PayOSGateway

/-- PayOSGateway.buildPayOSOrderCode (payos.gateway.ts): converts the caller
order code to the numeric PayOS order code, throwing (modelled as
`Except.error`) on malformed input. -/
def buildPayOSOrderCode (orderCode : String) : Except String Int :=
  match jsMatchDigits8 orderCode with
  | none => .error ("Invalid order code format - missing date: " ++ orderCode)
  | some dateChars =>
    let dateNum : Int := Int.ofNat (parse10Digits dateChars 0)
    let parts := splitOnChar '-' orderCode.toList
    let alphanumeric := parts.getLastD []
    if alphanumeric.length < 5 then
      .error ("Invalid order code format - alphanumeric too short: " ++ orderCode)
    else
      let last5 := String.mk ((alphanumeric.drop (alphanumeric.length - 5)).map Char.toUpper)
      match jsParseInt36 last5 with
      | none => .error ("Invalid alphanumeric code: " ++ last5)
      | some alphaNum => .ok (dateNum * 100000000 + alphaNum)

/-- One item of the PayOS payment request body. -/
structure PayOSItem where
  name : String
  quantity : Int
  price : Int
deriving DecidableEq, Repr

/-- PayOSPaymentRequestBody as built by buildPaymentRequestBody. -/
structure PayOSPaymentRequestBody where
  orderCode : Int
  amount : Int
  description : String
  items : List PayOSItem
  cancelUrl : String
  returnUrl : String
  expiredAt : Int
deriving DecidableEq, Repr

/-- The PayOS SDK response fields the gateway reads; a missing
`checkoutUrl` is `none`. -/
structure PayOSCreatePaymentResponse where
  checkoutUrl : Option String
  paymentLinkId : String
deriving DecidableEq, Repr

/-- PayOSGateway.buildPaymentRequestBody: numeric order code, redirect URLs
decorated with the booking code and status, expiry from the current epoch
seconds plus the timeout (`input.timeoutSeconds || 300`). -/
def buildPaymentRequestBody (input : CreatePaymentLinkInput) (nowSec : Int) :
    Except String PayOSPaymentRequestBody :=
  match buildPayOSOrderCode input.orderCode with
  | .error e => .error e
  | .ok payosOrderCode =>
    let cancelUrl :=
      if jsIncludes input.redirectUrl "?" then
        input.redirectUrl ++ "&bookingCode=" ++ input.orderCode ++ "&status=cancelled"
      else
        input.redirectUrl ++ "?bookingCode=" ++ input.orderCode ++ "&status=cancelled"
    let returnUrl :=
      if jsIncludes input.redirectUrl "?" then
        input.redirectUrl ++ "&bookingCode=" ++ input.orderCode ++ "&status=success"
      else
        input.redirectUrl ++ "?bookingCode=" ++ input.orderCode ++ "&status=success"
    let expiredAt := nowSec + (if input.timeoutSeconds = 0 then 300 else input.timeoutSeconds)
    .ok { orderCode := payosOrderCode, amount := input.amount,
          description := "Payment for order " ++ input.orderCode,
          items := [{ name := "Order " ++ input.orderCode, quantity := 1,
                      price := input.amount }],
          cancelUrl := cancelUrl, returnUrl := returnUrl, expiredAt := expiredAt }

/-- PayOSGateway.createPaymentLink: builds the request body, calls the PayOS
SDK (a parameter, since it is an external HTTP client), rejects a response
without a `checkoutUrl`, and wraps every failure in the catch-all
`There was an error with PayOS`.  Returns `(url, transactionId)` where the
transaction id is the provider-assigned `paymentLinkId`. -/
def createPaymentLink
    (payosSDK : PayOSPaymentRequestBody → Except String PayOSCreatePaymentResponse)
    (input : CreatePaymentLinkInput) (nowSec : Int) :
    Except String (String × String) :=
  match buildPaymentRequestBody input nowSec with
  | .error _ => .error "There was an error with PayOS"
  | .ok body =>
    match payosSDK body with
    | .error _ => .error "There was an error with PayOS"
    | .ok response =>
      match response.checkoutUrl with
      | none => .error "There was an error with PayOS"
      | some u =>
        if u = "" then .error "There was an error with PayOS"
        else .ok (u, response.paymentLinkId)

end PayOSGateway

/- ===================== Data model (prisma schema) ===================== -/

/-- Payment status enum (prisma `PaymentStatus`). -/
inductive PaymentStatus
  | PENDING
  | COMPLETED
  | FAILED
  | CANCELLED
deriving DecidableEq, Repr

/-- One row of the `payments` table (migrations in prisma/migrations; unique
indexes `payments_idempotencyKey_key` and `payments_orderCode_key`).
Timestamps are integers; nullable columns are `Option`. -/
structure PaymentRec where
  id : String
  orderCode : String
  idempotencyKey : String
  amountCents : Int
  currency : String
  provider : String
  providerTransactionId : String
  paymentUrl : String
  redirectUrl : String
  status : PaymentStatus
  completedAt : Option Int
  failedAt : Option Int
  cancelledAt : Option Int
  updatedAt : Option Int
deriving DecidableEq, Repr

/-- A JSON scalar inside an outbox payload; ISO date strings are kept as the
underlying timestamp. -/
inductive JsonVal
  | str (s : String)
  | num (n : Int)
  | dateISO (t : Int)
deriving DecidableEq, Repr

/-- An outbox payload is a JSON object, modelled as a key/value list. -/
abbrev OutboxEventPayload := List (String × JsonVal)

/-- One row of the `outbox` table. -/
structure OutboxRec where
  id : String
  aggregateId : String
  aggregateType : String
  eventType : String
  payload : OutboxEventPayload
  published : Bool
  publishedAt : Option Int
  retryCount : Nat
  lastError : Option String
  createdAt : Int
deriving DecidableEq, Repr

abbrev PaymentsDB := List PaymentRec
abbrev OutboxDB := List OutboxRec

/- ===================== Payment repository ===================== -/

/-- Store errors raised by the unique constraints of the `payments` table. -/
inductive StoreError
  | DuplicateIdempotencyKey
  | DuplicateOrderCode
deriving DecidableEq, Repr

namespace PaymentRepository

/-- PaymentRepository.findByIdempotencyKey: `findUnique` on the unique
`idempotencyKey` column. -/
def findByIdempotencyKey (db : PaymentsDB) (idempotencyKey : String) :
    Option PaymentRec :=
  db.find? (fun p => p.idempotencyKey = idempotencyKey)

/-- PaymentRepository.findByOrderCode: `findUnique` on the unique
`orderCode` column. -/
def findByOrderCode (db : PaymentsDB) (orderCode : String) : Option PaymentRec :=
  db.find? (fun p => p.orderCode = orderCode)

/-- Modelled from the spec: `findByProviderTransactionId(pid)` returns the
record or nothing (the repository method is called by
PaymentService.handleSuccessPayment but its body is not among the dumped
sources; it is a `findFirst` on `providerTransactionId`). -/
def findByProviderTransactionId (db : PaymentsDB) (pid : String) :
    Option PaymentRec :=
  db.find? (fun p => p.providerTransactionId = pid)

/-- PaymentRepository.create: `prisma.payment.create` with a PENDING status;
the unique indexes on `idempotencyKey` and `orderCode` reject duplicates. -/
def create (db : PaymentsDB) (rec : PaymentRec) : Except StoreError PaymentsDB :=
  if db.any (fun p => p.idempotencyKey = rec.idempotencyKey) then
    .error .DuplicateIdempotencyKey
  else if db.any (fun p => p.orderCode = rec.orderCode) then
    .error .DuplicateOrderCode
  else
    .ok (db ++ [rec])

end PaymentRepository

/-- Updates the unique row with the given `orderCode` (prisma
`payment.update (where orderCode)`), returning the updated record and the new
table; `none` models prisma's record-not-found rejection. -/
def paymentUpdateByOrderCode (db : PaymentsDB) (orderCode : String)
    (f : PaymentRec → PaymentRec) : Option (PaymentRec × PaymentsDB) :=
  match db.find? (fun p => p.orderCode = orderCode) with
  | none => none
  | some p =>
    let p2 := f p
    some (p2, db.map (fun q => if q.orderCode = orderCode then p2 else q))

/- ===================== Outbox service ===================== -/

/-- Modelled from the spec: the outbox `EventType` enum
(src/modules/outbox/enums/event-type.enum.ts is not among the dumped
sources); the spec fixes the event types as PaymentCompleted, PaymentFailed
and PaymentCancelled. -/
def EventType.PAYMENT_COMPLETED : String := "PaymentCompleted"

/-- Modelled from the spec: see EventType.PAYMENT_COMPLETED. -/
def EventType.PAYMENT_FAILED : String := "PaymentFailed"

namespace OutboxService

/-- OutboxService.saveEvent (outbox.service.ts): appends one row with
`published = false` and `retryCount = 0` inside the supplied transaction;
the row id is database-assigned and passed in here. -/
def saveEvent (outbox : OutboxDB) (newId : String)
    (aggregateId aggregateType eventType : String)
    (payload : OutboxEventPayload) (createdAt : Int) : OutboxDB :=
  outbox ++ [{ id := newId, aggregateId := aggregateId,
               aggregateType := aggregateType, eventType := eventType,
               payload := payload, published := false, publishedAt := none,
               retryCount := 0, lastError := none, createdAt := createdAt }]

/-- Payload built by OutboxService.savePaymentCompletedEvent. -/
def completedPayload (payment : PaymentRec) (now : Int) : OutboxEventPayload :=
  [("payment_id", .str payment.id),
   ("order_code", .str payment.orderCode),
   ("amount_cents", .num payment.amountCents),
   ("currency", .str payment.currency),
   ("provider", .str payment.provider),
   ("transaction_id", .str payment.providerTransactionId),
   ("completed_at", .dateISO (payment.completedAt.getD now))]

/-- OutboxService.savePaymentCompletedEvent: one `saveEvent` with
`aggregateId = payment.id`, aggregate type `Payment` and the completed
event type. -/
def savePaymentCompletedEvent (outbox : OutboxDB) (newId : String)
    (payment : PaymentRec) (now : Int) : OutboxDB :=
  saveEvent outbox newId payment.id "Payment" EventType.PAYMENT_COMPLETED
    (completedPayload payment now) now

/-- Payload built by OutboxService.savePaymentFailedEvent. -/
def failedPayload (payment : PaymentRec) (now : Int) : OutboxEventPayload :=
  [("payment_id", .str payment.id),
   ("order_code", .str payment.orderCode),
   ("amount_cents", .num payment.amountCents),
   ("currency", .str payment.currency),
   ("provider", .str payment.provider),
   ("transaction_id", .str payment.providerTransactionId),
   ("failed_at", .dateISO (payment.failedAt.getD now))]

/-- OutboxService.savePaymentFailedEvent: one `saveEvent` with
`aggregateId = payment.id` and the failed event type. -/
def savePaymentFailedEvent (outbox : OutboxDB) (newId : String)
    (payment : PaymentRec) (now : Int) : OutboxDB :=
  saveEvent outbox newId payment.id "Payment" EventType.PAYMENT_FAILED
    (failedPayload payment now) now

/-- OutboxService.markAsPublished: sets `published = true` and stamps
`publishedAt`. -/
def markAsPublished (outbox : OutboxDB) (id : String) (now : Int) : OutboxDB :=
  outbox.map (fun r =>
    if r.id = id then { r with published := true, publishedAt := some now }
    else r)

/-- OutboxService.incrementRetryCount: `retryCount := retryCount + 1` and
stores the error truncated to 500 characters (`error.substring(0, 500)`). -/
def incrementRetryCount (outbox : OutboxDB) (id : String) (error : String) :
    OutboxDB :=
  outbox.map (fun r =>
    if r.id = id then
      { r with retryCount := r.retryCount + 1,
               lastError := some (jsSubstringTake error 500) }
    else r)

/-- OutboxService.deleteOldPublishedEvents: `deleteMany` of the rows with
`published = true` and `publishedAt < cutoffDate`, returning the count.  The
source computes `cutoffDate` as now minus `olderThanDays` days; the cutoff is
taken as the parameter here. -/
def deleteOldPublishedEvents (outbox : OutboxDB) (cutoffDate : Int) :
    OutboxDB × Nat :=
  let remaining := outbox.filter (fun r =>
    !(r.published && (match r.publishedAt with
                      | some t => decide (t < cutoffDate)
                      | none => false)))
  (remaining, outbox.length - remaining.length)

end OutboxService

/- ===================== Error codes and RPC exceptions ===================== -/

/-- ErrorCodeEnum (shared/constants/error-code.constant.ts). -/
inductive ErrorCodeEnum
  | PermissionDenied
  | PaymentNotFound
deriving DecidableEq, Repr

/-- Numeric value of each ErrorCodeEnum member. -/
def ErrorCodeEnum.code : ErrorCodeEnum → Nat
  | .PermissionDenied => 20403
  | .PaymentNotFound => 20000

/-- The `ErrorCode` table: business message and HTTP status per code. -/
def ErrorCode : ErrorCodeEnum → String × Nat
  | .PermissionDenied => ("Permission denied", 403)
  | .PaymentNotFound => ("Payment not found", 400)

/-- RpcBusinessException (common/exceptions/rpc-business.exception.ts):
carries gRPC code INVALID_ARGUMENT (3) and message `code - message`. -/
structure RpcBusinessException where
  grpcCode : Nat
  message : String
deriving DecidableEq, Repr

/-- Constructor of RpcBusinessException from an ErrorCodeEnum member. -/
def mkRpcBusinessException (c : ErrorCodeEnum) : RpcBusinessException :=
  { grpcCode := 3, message := toString c.code ++ " - " ++ (ErrorCode c).1 }

/- ===================== Payment service (lifecycle engine) ===================== -/

/-- CreatePaymentIntentDto as passed to PaymentService.createPaymentIntent. -/
structure CreatePaymentIntentDto where
  orderCode : String
  amountCents : Int
  currency : String
  provider : String
  idempotencyKey : String
  redirectUrl : String
  timeoutSeconds : Int
deriving DecidableEq, Repr

namespace PaymentService

/-- The record inserted by PaymentRepository.create for a new intent:
dto fields plus the gateway url and transaction id, status PENDING. -/
def newPendingRec (newId : String) (dto : CreatePaymentIntentDto)
    (url transactionId : String) : PaymentRec :=
  { id := newId, orderCode := dto.orderCode,
    idempotencyKey := dto.idempotencyKey, amountCents := dto.amountCents,
    currency := dto.currency, provider := dto.provider,
    providerTransactionId := transactionId, paymentUrl := url,
    redirectUrl := dto.redirectUrl, status := .PENDING,
    completedAt := none, failedAt := none, cancelledAt := none,
    updatedAt := none }

/-- PaymentService.createPaymentIntent (payment.service.ts): advisory
idempotency lookup, gateway link creation, then insert.  The gateway is a
parameter (remote call).  The lookup and the insert are separated by
suspension points (`await`), so the table seen by the lookup (`dbAtLookup`)
and the table seen by the insert (`dbAtInsert`) may differ when a racing
call commits in between; a sequential call passes the same table twice.
An insert failure is propagated unchanged — there is no catch. -/
def createPaymentIntent (gateway : CreatePaymentLinkInput → String × String)
    (dbAtLookup dbAtInsert : PaymentsDB) (newId : String)
    (dto : CreatePaymentIntentDto) : Except StoreError (String × PaymentsDB) :=
  match PaymentRepository.findByIdempotencyKey dbAtLookup dto.idempotencyKey with
  | some existing => .ok (existing.paymentUrl, dbAtInsert)
  | none =>
    let (url, transactionId) := gateway
      { amount := dto.amountCents, orderCode := dto.orderCode,
        currency := dto.currency, idempotencyKey := dto.idempotencyKey,
        redirectUrl := dto.redirectUrl, timeoutSeconds := dto.timeoutSeconds }
    match PaymentRepository.create dbAtInsert (newPendingRec newId dto url transactionId) with
    | .error e => .error e
    | .ok db2 => .ok (url, db2)

/-- PaymentService.handleSuccessPayment (payment.service.ts): looks the
payment up by provider transaction id, then in one transaction sets
`status = COMPLETED, completedAt = now` (no guard on the current status) and
appends the PaymentCompleted outbox event.  The `Except` result models the
transaction: an error leaves both tables untouched. -/
def handleSuccessPayment (db : PaymentsDB) (outbox : OutboxDB)
    (newOutboxId : String) (now : Int) (providerTransactionId : String) :
    Except String (PaymentsDB × OutboxDB) :=
  match PaymentRepository.findByProviderTransactionId db providerTransactionId with
  | none => .error ("Payment not found for providerTransactionId: " ++ providerTransactionId)
  | some existingPayment =>
    match paymentUpdateByOrderCode db existingPayment.orderCode
        (fun p => { p with status := .COMPLETED, completedAt := some now }) with
    | none => .error "Record to update not found."
    | some (payment, db2) =>
      .ok (db2, OutboxService.savePaymentCompletedEvent outbox newOutboxId payment now)

/-- PaymentService.handleFailedPayment: symmetric to handleSuccessPayment,
target FAILED, appends the PaymentFailed outbox event. -/
def handleFailedPayment (db : PaymentsDB) (outbox : OutboxDB)
    (newOutboxId : String) (now : Int) (providerTransactionId : String) :
    Except String (PaymentsDB × OutboxDB) :=
  match PaymentRepository.findByProviderTransactionId db providerTransactionId with
  | none => .error ("Payment not found for providerTransactionId: " ++ providerTransactionId)
  | some existingPayment =>
    match paymentUpdateByOrderCode db existingPayment.orderCode
        (fun p => { p with status := .FAILED, failedAt := some now }) with
    | none => .error "Record to update not found."
    | some (payment, db2) =>
      .ok (db2, OutboxService.savePaymentFailedEvent outbox newOutboxId payment now)

/-- PaymentService.cancelPayment: one transaction setting
`status = CANCELLED, cancelledAt = now` on the row with the given order code
and appending a `PaymentCancelled` outbox event (raw string event type and
camelCase payload, as in the source). -/
def cancelPayment (db : PaymentsDB) (outbox : OutboxDB) (newOutboxId : String)
    (now : Int) (orderCode : String) : Except String (PaymentsDB × OutboxDB) :=
  match paymentUpdateByOrderCode db orderCode
      (fun p => { p with status := .CANCELLED, cancelledAt := some now }) with
  | none => .error "Record to update not found."
  | some (payment, db2) =>
    .ok (db2, OutboxService.saveEvent outbox newOutboxId payment.id "Payment"
      "PaymentCancelled"
      [("paymentId", .str payment.id),
       ("orderCode", .str payment.orderCode),
       ("cancelledAt", .dateISO now)] now)

/-- PaymentService.findByIdempotencyKey: throws
`RpcBusinessException(ErrorCodeEnum.PermissionDenied)` when no payment has
the given idempotency key. -/
def findByIdempotencyKey (db : PaymentsDB) (idempotencyKey : String) :
    Except RpcBusinessException PaymentRec :=
  match PaymentRepository.findByIdempotencyKey db idempotencyKey with
  | none => .error (mkRpcBusinessException .PermissionDenied)
  | some payment => .ok payment

end PaymentService

/- ===================== ZaloPay gateway ===================== -/

/-- ZaloPay callback body `(data, mac, type)` as posted by the provider. -/
structure ZalopayCallbackBody where
  data : String
  mac : String
  type : Int
deriving DecidableEq, Repr

/-- Inner decoded ZaloPay callback data; only the field the adapter reads. -/
structure ZalopayCallbackData where
  app_trans_id : String
deriving DecidableEq, Repr

/-- Response the adapter returns to ZaloPay. -/
structure ZalopayCallbackResponse where
  return_code : Int
  return_message : String
deriving DecidableEq, Repr

/-- Uniform adapter callback output. -/
structure HandleCallbackOutput where
  success : Bool
  response : ZalopayCallbackResponse
  providerTransactionId : Option String
deriving DecidableEq, Repr

namespace ZalopayGateWay

/-- The adapter's constant failure return code. -/
def callbackErrorCode : Int := -1

/-- ZalopayGateWay.initZaloPayCallbackRes. -/
def initZaloPayCallbackRes (code : Int) (message : String) : ZalopayCallbackResponse :=
  { return_code := code, return_message := message }

/-- ZalopayGateWay.handleCallback (zalopay.gateway.ts): recompute the
HMAC-SHA256 of the raw `data` string with `key2` and compare to `mac`;
then decode the inner JSON (a decoding throw lands in the catch branch);
then reject callbacks whose `type` is not 1.  The crypto primitive and the
JSON decoder live outside the repository and are parameters. -/
def handleCallback (hmacSHA256Hex : String → String → String)
    (jsonDecodeZalo : String → Option ZalopayCallbackData)
    (key2 : String) (callbackBody : ZalopayCallbackBody) : HandleCallbackOutput :=
  let requestMac := hmacSHA256Hex key2 callbackBody.data
  if requestMac ≠ callbackBody.mac then
    { success := false,
      response := initZaloPayCallbackRes callbackErrorCode "Invalid mac",
      providerTransactionId := none }
  else
    match jsonDecodeZalo callbackBody.data with
    | none =>
      { success := false,
        response := initZaloPayCallbackRes callbackErrorCode "Processing error",
        providerTransactionId := none }
    | some transData =>
      if callbackBody.type ≠ 1 then
        { success := false,
          response := initZaloPayCallbackRes callbackErrorCode "Unsupported callback type",
          providerTransactionId := none }
      else
        { success := true,
          response := initZaloPayCallbackRes 1 "Success",
          providerTransactionId := some transData.app_trans_id }

end ZalopayGateWay

/-- ZalopayGateway.getOrderCodeFromAppTransId (lambda variant): split on
underscore, throw unless exactly two parts. -/
def getOrderCodeFromAppTransId (appTransId : String) : Option String :=
  let parts := splitOnChar '_' appTransId.toList
  if parts.length ≠ 2 then none
  else some (String.mk (parts.getD 1 []))

/-- The lambda ZalopayGateway.handleCallback
(lambdas/payment-webhook-handler/gateways/zalopay/zalopay.gateway.ts):
identical control flow to the service adapter, except that the success path
additionally derives the order code from `app_trans_id` (a malformed id
throws into the catch branch). -/
def zalopayHandleCallbackLambda (hmacSHA256Hex : String → String → String)
    (jsonDecodeZalo : String → Option ZalopayCallbackData)
    (key2 : String) (callbackBody : ZalopayCallbackBody) : HandleCallbackOutput :=
  let requestMac := hmacSHA256Hex key2 callbackBody.data
  if requestMac ≠ callbackBody.mac then
    { success := false,
      response := ZalopayGateWay.initZaloPayCallbackRes ZalopayGateWay.callbackErrorCode "Invalid mac",
      providerTransactionId := none }
  else
    match jsonDecodeZalo callbackBody.data with
    | none =>
      { success := false,
        response := ZalopayGateWay.initZaloPayCallbackRes ZalopayGateWay.callbackErrorCode "Processing error",
        providerTransactionId := none }
    | some transData =>
      if callbackBody.type ≠ 1 then
        { success := false,
          response := ZalopayGateWay.initZaloPayCallbackRes ZalopayGateWay.callbackErrorCode "Unsupported callback type",
          providerTransactionId := none }
      else
        match getOrderCodeFromAppTransId transData.app_trans_id with
        | none =>
          { success := false,
            response := ZalopayGateWay.initZaloPayCallbackRes ZalopayGateWay.callbackErrorCode "Processing error",
            providerTransactionId := none }
        | some _ =>
          { success := true,
            response := ZalopayGateWay.initZaloPayCallbackRes 1 "Success",
            providerTransactionId := some transData.app_trans_id }

/- ===================== Lambda webhook handler ===================== -/

/-- Lambda EventType enum (lambdas/common/types/event.types.ts). -/
def LambdaEventType.PAYMENT_COMPLETED : String := "PAYMENT_COMPLETED"

/-- An error thrown in the lambda handler: JS error `name` and `message`. -/
structure LambdaError where
  name : String
  message : String
deriving DecidableEq, Repr

/-- The JSON body of an API Gateway response: either the ZaloPay-shaped
callback acknowledgement or the standard error response
`(error, message)` built by createErrorResponse. -/
inductive LambdaBodyVal
  | zalo (r : ZalopayCallbackResponse)
  | err (error : String) (message : String)
deriving DecidableEq, Repr

/-- APIGatewayProxyResult as produced by the lambda webhook handler. -/
structure APIGatewayResult where
  statusCode : Int
  body : LambdaBodyVal
deriving DecidableEq, Repr

/-- getStatusCodeForError (lambdas/common/utils/error-handler.ts): maps the
lowercased error name to an HTTP status by substring tests. -/
def getStatusCodeForError (name : String) : Int :=
  let errorName := String.mk (name.toList.map Char.toLower)
  if jsIncludes errorName "validation" then 400
  else if jsIncludes errorName "unauthorized" || jsIncludes errorName "authentication" then 401
  else if jsIncludes errorName "forbidden" || jsIncludes errorName "permission" then 403
  else if jsIncludes errorName "notfound" || jsIncludes errorName "not found" then 404
  else if jsIncludes errorName "conflict" then 409
  else if jsIncludes errorName "timeout" then 408
  else 500

/-- handleError (lambdas/common/utils/error-handler.ts): logs and returns
`createErrorResponse(statusCode, error.name, error.message, ...)`. -/
def handleError (e : LambdaError) : APIGatewayResult :=
  { statusCode := getStatusCodeForError e.name, body := .err e.name e.message }

/-- extractOrderCode (payment-webhook-handler/index.ts), ZaloPay branch:
`parts.length > 1 ? parts[1] : appTransId`. -/
def extractOrderCode (appTransId : String) : String :=
  let parts := splitOnChar '_' appTransId.toList
  if parts.length > 1 then String.mk (parts.getD 1 []) else appTransId

/-- handleWebhook (lambdas/payment-webhook-handler/index.ts), ZaloPay path:
run the adapter; on verification failure acknowledge with HTTP 200 and the
adapter response; otherwise extract the order code and, in one transaction,
look the payment up (missing payment throws ValidationError, caught by
handleError into an HTTP 400), skip if it is already COMPLETED, else update
it to COMPLETED and append a PAYMENT_COMPLETED outbox row.  Returns the
HTTP response together with the two tables after the call.  The second
JSON decode of `body.data` reuses the same decoder, so its failure branch is
unreachable once the adapter has accepted the callback. -/
def handleWebhookZalopay (hmacSHA256Hex : String → String → String)
    (jsonDecodeZalo : String → Option ZalopayCallbackData)
    (key2 : String) (db : PaymentsDB) (outbox : OutboxDB)
    (newOutboxId : String) (now : Int) (body : ZalopayCallbackBody) :
    APIGatewayResult × PaymentsDB × OutboxDB :=
  let callbackResult := zalopayHandleCallbackLambda hmacSHA256Hex jsonDecodeZalo key2 body
  if callbackResult.success = false then
    ({ statusCode := 200, body := .zalo callbackResult.response }, db, outbox)
  else
    match jsonDecodeZalo body.data with
    | none =>
      (handleError { name := "SyntaxError", message := "Invalid JSON" }, db, outbox)
    | some callbackData =>
      let orderCode := extractOrderCode callbackData.app_trans_id
      match db.find? (fun p => p.orderCode = orderCode) with
      | none =>
        (handleError { name := "ValidationError",
                       message := "Payment not found for order " ++ orderCode }, db, outbox)
      | some payment =>
        if payment.status = .COMPLETED then
          ({ statusCode := 200, body := .zalo callbackResult.response }, db, outbox)
        else
          let p2 := { payment with
            status := .COMPLETED,
            providerTransactionId :=
              jsOrString callbackResult.providerTransactionId payment.providerTransactionId,
            completedAt := some now, updatedAt := some now }
          let db2 := db.map (fun q => if q.id = payment.id then p2 else q)
          let eventPayload : OutboxEventPayload :=
            [("payment_id", .str payment.id),
             ("order_code", .str payment.orderCode),
             ("amount_cents", .num payment.amountCents),
             ("currency", .str payment.currency),
             ("provider", .str payment.provider),
             ("transaction_id", .str (jsOrString callbackResult.providerTransactionId
                (jsOrString (some payment.providerTransactionId) ""))),
             ("completed_at", .dateISO (payment.completedAt.getD now))]
          let row : OutboxRec :=
            { id := newOutboxId, aggregateId := payment.id,
              aggregateType := "payment",
              eventType := LambdaEventType.PAYMENT_COMPLETED,
              payload := eventPayload, published := false, publishedAt := none,
              retryCount := 0, lastError := none, createdAt := now }
          ({ statusCode := 200, body := .zalo callbackResult.response },
            db2, outbox ++ [row])

/- ===================== Outbox publisher ===================== -/

/-- Modelled from the spec: the service-side Kafka topic constant
(shared/constants/kafka-topic.constant.ts is not among the dumped sources).
The spec fixes the bus topics as payment.completed, payment.failed and
payment.cancelled, matching the in-repo lambda constants file
(lambdas/common/constants/kafka-topics.ts); the PAYMENT_CREATED and
PAYMENT_REFUNDED properties referenced by the publisher's routing table have
no definition anywhere in the repository or the spec, so reading them yields
`undefined`, modelled as `none`. -/
def KAFKA_TOPICS.PAYMENT_COMPLETED : Option String := some "payment.completed"

/-- Modelled from the spec: see KAFKA_TOPICS.PAYMENT_COMPLETED. -/
def KAFKA_TOPICS.PAYMENT_FAILED : Option String := some "payment.failed"

/-- Modelled from the spec: see KAFKA_TOPICS.PAYMENT_COMPLETED. -/
def KAFKA_TOPICS.PAYMENT_CANCELLED : Option String := some "payment.cancelled"

/-- Modelled from the spec: see KAFKA_TOPICS.PAYMENT_COMPLETED. -/
def KAFKA_TOPICS.PAYMENT_CREATED : Option String := none

/-- Modelled from the spec: see KAFKA_TOPICS.PAYMENT_COMPLETED. -/
def KAFKA_TOPICS.PAYMENT_REFUNDED : Option String := none

/-- Kafka message headers attached by the publisher. -/
structure KafkaHeaders where
  eventType : String
  eventVersion : String
  source : String
  correlationId : String
deriving DecidableEq, Repr

/-- A message sent to the bus: topic, payload, key and headers. -/
structure BusMessage where
  topic : String
  payload : OutboxEventPayload
  key : String
  headers : KafkaHeaders
deriving DecidableEq, Repr

namespace OutboxPublisherService

/-- OutboxPublisherService.getTopicForEventType (outbox-publisher service in
src/modules/outbox): a string-keyed object literal looked up with
`mapping[eventType] || null`. -/
def getTopicForEventType (eventType : String) : Option String :=
  let mapping : List (String × Option String) :=
    [("PaymentCreated", KAFKA_TOPICS.PAYMENT_CREATED),
     ("PaymentCompleted", KAFKA_TOPICS.PAYMENT_COMPLETED),
     ("PaymentFailed", KAFKA_TOPICS.PAYMENT_FAILED),
     ("PaymentCancelled", KAFKA_TOPICS.PAYMENT_CANCELLED),
     ("PaymentRefunded", KAFKA_TOPICS.PAYMENT_REFUNDED)]
  jsOrNull (mapping.lookup eventType).join

/-- OutboxPublisherService.publishEvent: route the event; an unroutable
event increments its retry count with message `Unknown event type: <type>`
and is skipped; a routed event is sent to the bus with
key `aggregateId` and the standard headers, then marked published; a bus
failure increments the retry count with the error message and rethrows
(the final Bool records the rethrow).  The bus producer is a parameter. -/
def publishEvent (sendMessage : BusMessage → Except String Unit)
    (outbox : OutboxDB) (bus : List BusMessage) (now : Int) (event : OutboxRec) :
    OutboxDB × List BusMessage × Bool :=
  match getTopicForEventType event.eventType with
  | none =>
    (OutboxService.incrementRetryCount outbox event.id
      ("Unknown event type: " ++ event.eventType), bus, false)
  | some topic =>
    let msg : BusMessage :=
      { topic := topic, payload := event.payload, key := event.aggregateId,
        headers := { eventType := event.eventType, eventVersion := "1.0",
                     source := "payment-service",
                     correlationId := event.aggregateId } }
    match sendMessage msg with
    | .ok _ =>
      (OutboxService.markAsPublished outbox event.id now, bus ++ [msg], false)
    | .error err =>
      (OutboxService.incrementRetryCount outbox event.id
        (jsOrString (some err) "Unknown error"), bus, true)

end OutboxPublisherService

/- ===================== Claims ===================== -/

/-- C7: buildPayOSOrderCode is a deterministic function of the caller
orderCode (equal inputs give equal outputs), and on
"TB-TSE24-20251008-A3B7K9M2" it returns 20251008 * 10^8 plus the base-36
value of "7K9M2", i.e. 2025100812702890. -/
theorem C7_buildPayOSOrderCode_deterministic_value :
    (∀ s t : String, s = t →
      PayOSGateway.buildPayOSOrderCode s = PayOSGateway.buildPayOSOrderCode t) ∧
    PayOSGateway.buildPayOSOrderCode "TB-TSE24-20251008-A3B7K9M2" =
      Except.ok 2025100812702890 ∧
    jsParseInt36 "7K9M2" = some 12702890 ∧
    (2025100812702890 : Int) = 20251008 * 100000000 + 12702890 := by
  refine ⟨fun s t h => by rw [h], by rfl, by decide, by decide⟩

/-- Witness for C7: the theorem applied at the concrete order code. -/
theorem C7_witness :
    PayOSGateway.buildPayOSOrderCode "TB-TSE24-20251008-A3B7K9M2" =
      PayOSGateway.buildPayOSOrderCode "TB-TSE24-20251008-A3B7K9M2" ∧
    PayOSGateway.buildPayOSOrderCode "TB-TSE24-20251008-A3B7K9M2" =
      Except.ok 2025100812702890 :=
  ⟨C7_buildPayOSOrderCode_deterministic_value.1
      "TB-TSE24-20251008-A3B7K9M2" "TB-TSE24-20251008-A3B7K9M2" rfl,
    C7_buildPayOSOrderCode_deterministic_value.2.1⟩

/-- C10: buildPayOSOrderCode throws for any caller orderCode with no run of
8 consecutive digits, and for any one whose last dash-separated segment is
shorter than 5 characters; consequently PayOS createPaymentLink fails on
such inputs whatever the provider SDK would answer (the provider is never
consulted). -/
theorem C10_buildPayOSOrderCode_partial (s : String)
    (h : jsMatchDigits8 s = none ∨
      ((splitOnChar '-' s.toList).getLastD []).length < 5) :
    (∃ e, PayOSGateway.buildPayOSOrderCode s = .error e) ∧
    (∀ (payosSDK : PayOSGateway.PayOSPaymentRequestBody →
        Except String PayOSGateway.PayOSCreatePaymentResponse)
      (input : CreatePaymentLinkInput) (nowSec : Int), input.orderCode = s →
      PayOSGateway.createPaymentLink payosSDK input nowSec =
        .error "There was an error with PayOS") := by
  have hbuild : ∃ e, PayOSGateway.buildPayOSOrderCode s = .error e := by
    unfold PayOSGateway.buildPayOSOrderCode
    rcases h with h8 | hshort
    · rw [h8]
      exact ⟨_, rfl⟩
    · cases hm : jsMatchDigits8 s with
      | none => exact ⟨_, rfl⟩
      | some dateChars =>
        simp only [hshort, if_pos]
        exact ⟨_, rfl⟩
  refine ⟨hbuild, fun payosSDK input nowSec hoc => ?_⟩
  obtain ⟨e, he⟩ := hbuild
  unfold PayOSGateway.createPaymentLink PayOSGateway.buildPaymentRequestBody
  rw [hoc, he]

/-- Witness for C10: the order code "HELLO" has no 8-digit run, so link
creation fails for a concrete SDK stub. -/
theorem C10_witness :
    (∃ e, PayOSGateway.buildPayOSOrderCode "HELLO" = .error e) ∧
    PayOSGateway.createPaymentLink
      (fun _ => .ok { checkoutUrl := some "https://pay.payos.vn/web/x",
                      paymentLinkId := "plid1" })
      { amount := 100000, orderCode := "HELLO", currency := "VND",
        idempotencyKey := "k1", redirectUrl := "https://shop.example/r",
        timeoutSeconds := 600 } 1700000000 =
      .error "There was an error with PayOS" := by
  have h := C10_buildPayOSOrderCode_partial "HELLO" (Or.inl (by decide))
  exact ⟨h.1, h.2 _ _ 1700000000 rfl⟩

/-- A concrete stand-in for the HMAC primitive, used to instantiate the
quantified counterexamples (the control flow under scrutiny is independent
of the hash function). -/
def hmacConcat (key msg : String) : String :=
  key ++ "/" ++ msg

/-- A concrete stand-in for the ZaloPay JSON decoder: decodes any string to
a data object whose app_trans_id is the string itself. -/
def zaloDecodeId (s : String) : Option ZalopayCallbackData :=
  some { app_trans_id := s }

/-- Counterexample to C6: the adapter is not an if-and-only-if on the MAC
check.  For the callback whose data is "D", whose mac equals the computed
HMAC and whose type is 7, the MAC matches and yet the adapter returns
success = false (the type guard also rejects), refuting the claimed
equivalence. -/
theorem C6_counterexample :
    hmacConcat "K2" "D" = ZalopayCallbackBody.mac { data := "D", mac := "K2/D", type := 7 } ∧
    ¬((ZalopayGateWay.handleCallback hmacConcat zaloDecodeId "K2"
        { data := "D", mac := "K2/D", type := 7 }).success = true ↔
      hmacConcat "K2" "D" = "K2/D") := by
  constructor
  · rfl
  · intro hiff
    have : (ZalopayGateWay.handleCallback hmacConcat zaloDecodeId "K2"
        { data := "D", mac := "K2/D", type := 7 }).success = false := by decide
    rw [hiff.symm.mp rfl] at this
    exact Bool.noConfusion this

/-- C6 amended: the adapter returns success = true only if the recomputed
HMAC of body.data keyed by key2 equals body.mac (additionally the data must
decode and body.type must be 1, and the provider transaction id is the inner
app_trans_id); when the MAC does not match it returns success = false with
response return_code -1 / return_message "Invalid mac" and exposes no
provider transaction id. -/
theorem C6_zalopay_mac_check
    (hmacSHA256Hex : String → String → String)
    (jsonDecodeZalo : String → Option ZalopayCallbackData)
    (key2 : String) (body : ZalopayCallbackBody) :
    ((ZalopayGateWay.handleCallback hmacSHA256Hex jsonDecodeZalo key2 body).success = true →
      hmacSHA256Hex key2 body.data = body.mac ∧ body.type = 1 ∧
      ∃ d, jsonDecodeZalo body.data = some d ∧
        (ZalopayGateWay.handleCallback hmacSHA256Hex jsonDecodeZalo key2 body).providerTransactionId
          = some d.app_trans_id) ∧
    (hmacSHA256Hex key2 body.data ≠ body.mac →
      ZalopayGateWay.handleCallback hmacSHA256Hex jsonDecodeZalo key2 body =
        { success := false,
          response := { return_code := -1, return_message := "Invalid mac" },
          providerTransactionId := none }) := by
  constructor
  · intro hsucc
    by_cases hmac : hmacSHA256Hex key2 body.data = body.mac
    · cases hdec : jsonDecodeZalo body.data with
      | none =>
        simp [ZalopayGateWay.handleCallback, hmac, hdec] at hsucc
      | some d =>
        by_cases htype : body.type = 1
        · refine ⟨hmac, htype, d, rfl, ?_⟩
          simp [ZalopayGateWay.handleCallback, hmac, hdec, htype]
        · simp [ZalopayGateWay.handleCallback, hmac, hdec, htype] at hsucc
    · simp [ZalopayGateWay.handleCallback, hmac] at hsucc
  · intro hmac
    simp [ZalopayGateWay.handleCallback, hmac, ZalopayGateWay.initZaloPayCallbackRes,
      ZalopayGateWay.callbackErrorCode]

/-- Witness for C6: the amended theorem applied at a concrete mismatching
callback. -/
theorem C6_witness :
    ZalopayGateWay.handleCallback hmacConcat zaloDecodeId "K2"
      { data := "D", mac := "WRONG", type := 1 } =
      { success := false,
        response := { return_code := -1, return_message := "Invalid mac" },
        providerTransactionId := none } :=
  (C6_zalopay_mac_check hmacConcat zaloDecodeId "K2"
    { data := "D", mac := "WRONG", type := 1 }).2 (by decide)

/-- A concrete deterministic gateway stub for witnesses and counterexamples. -/
def gw0 : CreatePaymentLinkInput → String × String :=
  fun input => ("https://pay.example/" ++ input.orderCode, "tx-" ++ input.orderCode)

/-- A concrete create-intent request. -/
def dto0 : CreatePaymentIntentDto :=
  { orderCode := "o1", amountCents := 100000, currency := "VND",
    provider := "ZALOPAY", idempotencyKey := "k1",
    redirectUrl := "https://shop.example/r", timeoutSeconds := 600 }

/-- The payment row persisted by the first successful call for dto0. -/
def rec0 : PaymentRec :=
  PaymentService.newPendingRec "p1" dto0 "https://pay.example/o1" "tx-o1"

/-- Counterexample to C1: a call that misses the advisory lookup (the table
was empty then) but whose insert runs after a racer has persisted the row
with the same idempotency key propagates DuplicateIdempotencyKey to the
caller; it does not re-read and return the persisted paymentUrl. -/
theorem C1_counterexample :
    PaymentService.createPaymentIntent gw0 [] [rec0] "p2" dto0 =
      .error .DuplicateIdempotencyKey ∧
    PaymentService.createPaymentIntent gw0 [] [rec0] "p2" dto0 ≠
      .ok (rec0.paymentUrl, [rec0]) := by
  have h : PaymentService.createPaymentIntent gw0 [] [rec0] "p2" dto0 =
      .error .DuplicateIdempotencyKey := by rfl
  exact ⟨h, by rw [h]; exact fun hc => Except.noConfusion hc⟩

/-- C1 amended: at most one payments row per idempotency key is ever
persisted (the unique constraint rejects a second insert, and a successful
call preserves key-uniqueness of the table), and a call that observes an
existing row for its key returns that row's stored paymentUrl unchanged;
however a call whose insert fails with DuplicateIdempotencyKey propagates
the error to the caller instead of re-reading the persisted URL. -/
theorem C1_createPaymentIntent_idempotency
    (gateway : CreatePaymentLinkInput → String × String)
    (dbAtLookup dbAtInsert db : PaymentsDB) (newId : String)
    (dto : CreatePaymentIntentDto) :
    (∀ p, PaymentRepository.findByIdempotencyKey db dto.idempotencyKey = some p →
      PaymentService.createPaymentIntent gateway db db newId dto =
        .ok (p.paymentUrl, db)) ∧
    (∀ url db2,
      List.Pairwise (fun a b : PaymentRec => a.idempotencyKey ≠ b.idempotencyKey) dbAtInsert →
      PaymentService.createPaymentIntent gateway dbAtLookup dbAtInsert newId dto =
        .ok (url, db2) →
      List.Pairwise (fun a b : PaymentRec => a.idempotencyKey ≠ b.idempotencyKey) db2) ∧
    (PaymentRepository.findByIdempotencyKey dbAtLookup dto.idempotencyKey = none →
      (∃ q ∈ dbAtInsert, q.idempotencyKey = dto.idempotencyKey) →
      PaymentService.createPaymentIntent gateway dbAtLookup dbAtInsert newId dto =
        .error .DuplicateIdempotencyKey) := by
  refine ⟨?_, ?_, ?_⟩
  · intro p hp
    unfold PaymentService.createPaymentIntent
    rw [hp]
  · intro url db2 huniq hok
    unfold PaymentService.createPaymentIntent at hok
    cases hfind : PaymentRepository.findByIdempotencyKey dbAtLookup dto.idempotencyKey with
    | some p =>
      rw [hfind] at hok
      cases hok
      exact huniq
    | none =>
      rw [hfind] at hok
      dsimp only at hok
      unfold PaymentRepository.create at hok
      by_cases hdup : (dbAtInsert.any fun p =>
          decide (p.idempotencyKey =
            (PaymentService.newPendingRec newId dto
              (gateway { amount := dto.amountCents, orderCode := dto.orderCode,
                         currency := dto.currency, idempotencyKey := dto.idempotencyKey,
                         redirectUrl := dto.redirectUrl,
                         timeoutSeconds := dto.timeoutSeconds }).1
              (gateway { amount := dto.amountCents, orderCode := dto.orderCode,
                         currency := dto.currency, idempotencyKey := dto.idempotencyKey,
                         redirectUrl := dto.redirectUrl,
                         timeoutSeconds := dto.timeoutSeconds }).2).idempotencyKey)) = true
      · rw [if_pos hdup] at hok
        exact Except.noConfusion hok
      · rw [if_neg hdup] at hok
        by_cases hord : (dbAtInsert.any fun p =>
            decide (p.orderCode =
              (PaymentService.newPendingRec newId dto
                (gateway { amount := dto.amountCents, orderCode := dto.orderCode,
                           currency := dto.currency, idempotencyKey := dto.idempotencyKey,
                           redirectUrl := dto.redirectUrl,
                           timeoutSeconds := dto.timeoutSeconds }).1
                (gateway { amount := dto.amountCents, orderCode := dto.orderCode,
                           currency := dto.currency, idempotencyKey := dto.idempotencyKey,
                           redirectUrl := dto.redirectUrl,
                           timeoutSeconds := dto.timeoutSeconds }).2).orderCode)) = true
        · rw [if_pos hord] at hok
          exact Except.noConfusion hok
        · rw [if_neg hord] at hok
          cases hok
          rw [List.pairwise_append]
          refine ⟨huniq, List.pairwise_singleton _ _, ?_⟩
          intro a ha b hb
          rw [List.mem_singleton] at hb
          subst hb
          intro hEq
          apply hdup
          rw [List.any_eq_true]
          exact ⟨a, ha, by simp [hEq]⟩
  · intro hfind hex
    unfold PaymentService.createPaymentIntent
    rw [hfind]
    dsimp only
    unfold PaymentRepository.create
    obtain ⟨q, hq, hkey⟩ := hex
    have hany : (dbAtInsert.any fun p =>
        decide (p.idempotencyKey =
          (PaymentService.newPendingRec newId dto
            (gateway { amount := dto.amountCents, orderCode := dto.orderCode,
                       currency := dto.currency, idempotencyKey := dto.idempotencyKey,
                       redirectUrl := dto.redirectUrl,
                       timeoutSeconds := dto.timeoutSeconds }).1
            (gateway { amount := dto.amountCents, orderCode := dto.orderCode,
                       currency := dto.currency, idempotencyKey := dto.idempotencyKey,
                       redirectUrl := dto.redirectUrl,
                       timeoutSeconds := dto.timeoutSeconds }).2).idempotencyKey)) = true := by
      rw [List.any_eq_true]
      refine ⟨q, hq, ?_⟩
      simp [PaymentService.newPendingRec, hkey]
    rw [if_pos hany]

/-- Witness for C1: the amended theorem at a concrete replayed call (lookup
hit returns the stored URL) and a concrete raced call (insert rejected). -/
theorem C1_witness :
    PaymentService.createPaymentIntent gw0 [rec0] [rec0] "p2" dto0 =
      .ok (rec0.paymentUrl, [rec0]) ∧
    PaymentService.createPaymentIntent gw0 [] [rec0] "p3" dto0 =
      .error .DuplicateIdempotencyKey :=
  ⟨(C1_createPaymentIntent_idempotency gw0 [rec0] [rec0] [rec0] "p2" dto0).1
      rec0 (by decide),
    (C1_createPaymentIntent_idempotency gw0 [] [rec0] [] "p3" dto0).2.2
      (by decide) ⟨rec0, by simp, by decide⟩⟩

/-- A payment that has already reached the terminal FAILED status. -/
def pFailed : PaymentRec := { rec0 with status := .FAILED, failedAt := some 2 }

/-- The row pFailed is overwritten to by a later success webhook. -/
def pOverwritten : PaymentRec :=
  { pFailed with status := .COMPLETED, completedAt := some 5 }

/-- The outbox row appended alongside that overwrite. -/
def obRowC2 : OutboxDB := OutboxService.savePaymentCompletedEvent [] "ob1" pOverwritten 5

/-- Counterexample to C2: the service-side handleSuccessPayment carries no
terminal-status guard; resolving a payment that is already FAILED mutates
it to COMPLETED (and appends another outbox event), so a terminal status is
not immutable. -/
theorem C2_counterexample :
    pFailed.status = PaymentStatus.FAILED ∧
    PaymentService.handleSuccessPayment [pFailed] [] "ob1" 5 "tx-o1" =
      Except.ok ([pOverwritten], obRowC2) ∧
    pOverwritten.status = PaymentStatus.COMPLETED :=
  ⟨rfl, rfl, rfl⟩

/-- C2 amended: only the lambda webhook handler guards a terminal status,
and only the COMPLETED one: a success webhook for a payment already
COMPLETED is a no-op that still answers HTTP 200 with the adapter body;
the service-side handleSuccessPayment updates unconditionally, so any found
payment — including one already FAILED or CANCELLED — ends COMPLETED. -/
theorem C2_terminal_status_guards :
    (∀ (hmacSHA256Hex : String → String → String)
       (jsonDecodeZalo : String → Option ZalopayCallbackData)
       (key2 : String) (db : PaymentsDB) (outbox : OutboxDB)
       (newOutboxId : String) (now : Int) (body : ZalopayCallbackBody)
       (d : ZalopayCallbackData) (p : PaymentRec),
      (zalopayHandleCallbackLambda hmacSHA256Hex jsonDecodeZalo key2 body).success = true →
      jsonDecodeZalo body.data = some d →
      db.find? (fun q => q.orderCode = extractOrderCode d.app_trans_id) = some p →
      p.status = .COMPLETED →
      handleWebhookZalopay hmacSHA256Hex jsonDecodeZalo key2 db outbox newOutboxId now body =
        ({ statusCode := 200,
           body := .zalo (zalopayHandleCallbackLambda hmacSHA256Hex jsonDecodeZalo key2 body).response },
          db, outbox)) ∧
    (∀ (db : PaymentsDB) (outbox : OutboxDB) (newOutboxId : String) (now : Int)
       (pid : String) (db2 : PaymentsDB) (ob2 : OutboxDB),
      PaymentService.handleSuccessPayment db outbox newOutboxId now pid = .ok (db2, ob2) →
      ∃ p, PaymentRepository.findByProviderTransactionId db pid = some p ∧
        ∀ q ∈ db2, q.orderCode = p.orderCode → q.status = .COMPLETED) := by
  constructor
  · intro hmacSHA256Hex jsonDecodeZalo key2 db outbox newOutboxId now body d p
      hsucc hdec hfindp hstat
    unfold handleWebhookZalopay
    dsimp only
    rw [hsucc, if_neg (by simp), hdec]
    dsimp only
    rw [hfindp]
    dsimp only
    rw [if_pos hstat]
  · intro db outbox newOutboxId now pid db2 ob2 hok
    unfold PaymentService.handleSuccessPayment paymentUpdateByOrderCode at hok
    cases hfind : PaymentRepository.findByProviderTransactionId db pid with
    | none =>
      rw [hfind] at hok
      exact Except.noConfusion hok
    | some p =>
      rw [hfind] at hok
      dsimp only at hok
      refine ⟨p, rfl, ?_⟩
      cases hf2 : List.find? (fun q => decide (q.orderCode = p.orderCode)) db with
      | none =>
        rw [hf2] at hok
        exact Except.noConfusion hok
      | some p0 =>
        rw [hf2] at hok
        dsimp only at hok
        cases hok
        intro q hq hqoc
        rw [List.mem_map] at hq
        obtain ⟨q0, hq0, hq0eq⟩ := hq
        by_cases hcase : q0.orderCode = p.orderCode
        · rw [if_pos (by simpa using hcase)] at hq0eq
          rw [← hq0eq]
        · rw [if_neg (by simpa using hcase)] at hq0eq
          subst hq0eq
          exact absurd hqoc hcase

/-- A payment that is already COMPLETED. -/
def pDone : PaymentRec := { rec0 with status := .COMPLETED, completedAt := some 3 }

/-- Witness for C2: the amended theorem at a concrete duplicate webhook
(lambda handler no-op on a COMPLETED payment) and at the concrete service
call that overwrites a FAILED payment. -/
theorem C2_witness :
    handleWebhookZalopay hmacConcat zaloDecodeId "K2" [pDone] [] "obX" 9
        { data := "251010_o1", mac := "K2/251010_o1", type := 1 } =
      ({ statusCode := 200,
         body := .zalo (zalopayHandleCallbackLambda hmacConcat zaloDecodeId "K2"
           { data := "251010_o1", mac := "K2/251010_o1", type := 1 }).response },
        [pDone], []) ∧
    (∃ p, PaymentRepository.findByProviderTransactionId [pFailed] "tx-o1" = some p ∧
      ∀ q ∈ [pOverwritten], q.orderCode = p.orderCode → q.status = .COMPLETED) :=
  ⟨C2_terminal_status_guards.1 hmacConcat zaloDecodeId "K2" [pDone] [] "obX" 9
      { data := "251010_o1", mac := "K2/251010_o1", type := 1 }
      { app_trans_id := "251010_o1" } pDone (by decide) rfl (by decide) rfl,
    C2_terminal_status_guards.2 [pFailed] [] "ob1" 5 "tx-o1" [pOverwritten] obRowC2 (by rfl)⟩

/-- C3: every status transition performed by the lifecycle engine appends
exactly one outbox record, whose aggregateId is the id of the mutated
payment and whose eventType names the transition, and the append and the
payment update are the two components of one transaction result: the
`Except` value either carries both new tables or neither (an error leaves
the caller with the unchanged originals), which is the atomic
commit/rollback of the prisma `$transaction`. -/
theorem C3_atomic_outbox_emission
    (db : PaymentsDB) (outbox : OutboxDB) (newOutboxId : String) (now : Int)
    (pid orderCode : String) :
    (∀ db2 ob2,
      PaymentService.handleSuccessPayment db outbox newOutboxId now pid = .ok (db2, ob2) →
      ∃ payment, payment ∈ db2 ∧ payment.status = .COMPLETED ∧
        ob2 = outbox ++
          [{ id := newOutboxId, aggregateId := payment.id, aggregateType := "Payment",
             eventType := "PaymentCompleted",
             payload := OutboxService.completedPayload payment now,
             published := false, publishedAt := none, retryCount := 0,
             lastError := none, createdAt := now }]) ∧
    (∀ db2 ob2,
      PaymentService.handleFailedPayment db outbox newOutboxId now pid = .ok (db2, ob2) →
      ∃ payment, payment ∈ db2 ∧ payment.status = .FAILED ∧
        ob2 = outbox ++
          [{ id := newOutboxId, aggregateId := payment.id, aggregateType := "Payment",
             eventType := "PaymentFailed",
             payload := OutboxService.failedPayload payment now,
             published := false, publishedAt := none, retryCount := 0,
             lastError := none, createdAt := now }]) ∧
    (∀ db2 ob2,
      PaymentService.cancelPayment db outbox newOutboxId now orderCode = .ok (db2, ob2) →
      ∃ payment, payment ∈ db2 ∧ payment.status = .CANCELLED ∧
        ob2 = outbox ++
          [{ id := newOutboxId, aggregateId := payment.id, aggregateType := "Payment",
             eventType := "PaymentCancelled",
             payload := [("paymentId", .str payment.id),
                         ("orderCode", .str payment.orderCode),
                         ("cancelledAt", .dateISO now)],
             published := false, publishedAt := none, retryCount := 0,
             lastError := none, createdAt := now }]) := by
  refine ⟨?_, ?_, ?_⟩
  · intro db2 ob2 hok
    unfold PaymentService.handleSuccessPayment paymentUpdateByOrderCode at hok
    cases hfind : PaymentRepository.findByProviderTransactionId db pid with
    | none =>
      rw [hfind] at hok
      exact Except.noConfusion hok
    | some p =>
      rw [hfind] at hok
      dsimp only at hok
      cases hf2 : List.find? (fun q => decide (q.orderCode = p.orderCode)) db with
      | none =>
        rw [hf2] at hok
        exact Except.noConfusion hok
      | some p0 =>
        rw [hf2] at hok
        dsimp only at hok
        cases hok
        refine ⟨{ p0 with status := .COMPLETED, completedAt := some now }, ?_, rfl, rfl⟩
        rw [List.mem_map]
        refine ⟨p0, List.mem_of_find?_eq_some hf2, ?_⟩
        rw [if_pos (by simpa using List.find?_some hf2)]
  · intro db2 ob2 hok
    unfold PaymentService.handleFailedPayment paymentUpdateByOrderCode at hok
    cases hfind : PaymentRepository.findByProviderTransactionId db pid with
    | none =>
      rw [hfind] at hok
      exact Except.noConfusion hok
    | some p =>
      rw [hfind] at hok
      dsimp only at hok
      cases hf2 : List.find? (fun q => decide (q.orderCode = p.orderCode)) db with
      | none =>
        rw [hf2] at hok
        exact Except.noConfusion hok
      | some p0 =>
        rw [hf2] at hok
        dsimp only at hok
        cases hok
        refine ⟨{ p0 with status := .FAILED, failedAt := some now }, ?_, rfl, rfl⟩
        rw [List.mem_map]
        refine ⟨p0, List.mem_of_find?_eq_some hf2, ?_⟩
        rw [if_pos (by simpa using List.find?_some hf2)]
  · intro db2 ob2 hok
    unfold PaymentService.cancelPayment paymentUpdateByOrderCode at hok
    cases hf2 : List.find? (fun q => decide (q.orderCode = orderCode)) db with
    | none =>
      rw [hf2] at hok
      exact Except.noConfusion hok
    | some p0 =>
      rw [hf2] at hok
      dsimp only at hok
      cases hok
      refine ⟨{ p0 with status := .CANCELLED, cancelledAt := some now }, ?_, rfl, rfl⟩
      rw [List.mem_map]
      refine ⟨p0, List.mem_of_find?_eq_some hf2, ?_⟩
      rw [if_pos (by simpa using List.find?_some hf2)]

/-- Witness for C3: the theorem applied at the concrete completed
transition of the pending payment rec0. -/
theorem C3_witness :
    ∃ payment, payment ∈ [pOverwritten] ∧ payment.status = .COMPLETED ∧
      obRowC2 = ([] : OutboxDB) ++
        [{ id := "ob1", aggregateId := payment.id, aggregateType := "Payment",
           eventType := "PaymentCompleted",
           payload := OutboxService.completedPayload payment 5,
           published := false, publishedAt := none, retryCount := 0,
           lastError := none, createdAt := 5 }] :=
  (C3_atomic_outbox_emission [pFailed] [] "ob1" 5 "tx-o1" "o1").1
    [pOverwritten] obRowC2 (by rfl)

/-- A bus producer stub that accepts every message. -/
def sendOk : BusMessage → Except String Unit := fun _ => .ok ()

/-- An outbox record whose event type is outside the routing table. -/
def evUnknown : OutboxRec :=
  { id := "ev1", aggregateId := "p1", aggregateType := "Payment",
    eventType := "PaymentRefundRequested", payload := [], published := false,
    publishedAt := none, retryCount := 0, lastError := none, createdAt := 1 }

/-- The record evUnknown after one unroutable publisher pass. -/
def evUnknownRetried : OutboxRec :=
  { evUnknown with
    retryCount := 1,
    lastError := some "Unknown event type: PaymentRefundRequested" }

/-- Counterexample to C4: an unroutable record is retried with the stored
error message `Unknown event type: <eventType>` — the event type is appended
— not the bare `Unknown event type` the claim states. -/
theorem C4_counterexample :
    OutboxPublisherService.publishEvent sendOk [evUnknown] [] 9 evUnknown =
      ([evUnknownRetried], [], false) ∧
    evUnknownRetried.lastError = some "Unknown event type: PaymentRefundRequested" ∧
    some "Unknown event type: PaymentRefundRequested" ≠ some "Unknown event type" :=
  ⟨by rfl, by rfl, by decide⟩

/-- C4 amended: the publisher's routing table sends PaymentCompleted to
payment.completed, PaymentFailed to payment.failed and PaymentCancelled to
payment.cancelled; every other event type resolves to no topic (the
PaymentCreated and PaymentRefunded entries reference undefined topic
constants and collapse to null), and such a record is skipped — nothing is
published — while its retryCount is incremented with the error message
`Unknown event type: <eventType>`. -/
theorem C4_publisher_routing
    (sendMessage : BusMessage → Except String Unit) (outbox : OutboxDB)
    (bus : List BusMessage) (now : Int) (event : OutboxRec) :
    OutboxPublisherService.getTopicForEventType "PaymentCompleted" = some "payment.completed" ∧
    OutboxPublisherService.getTopicForEventType "PaymentFailed" = some "payment.failed" ∧
    OutboxPublisherService.getTopicForEventType "PaymentCancelled" = some "payment.cancelled" ∧
    (∀ et, et ≠ "PaymentCompleted" → et ≠ "PaymentFailed" → et ≠ "PaymentCancelled" →
      OutboxPublisherService.getTopicForEventType et = none) ∧
    (OutboxPublisherService.getTopicForEventType event.eventType = none →
      OutboxPublisherService.publishEvent sendMessage outbox bus now event =
        (OutboxService.incrementRetryCount outbox event.id
          ("Unknown event type: " ++ event.eventType), bus, false)) := by
  refine ⟨by rfl, by rfl, by rfl, ?_, ?_⟩
  · intro et h1 h2 h3
    by_cases e1 : et = "PaymentCreated"
    · subst e1; rfl
    · by_cases e5 : et = "PaymentRefunded"
      · subst e5; rfl
      · have b1 : (et == "PaymentCreated") = false := beq_eq_false_iff_ne.mpr e1
        have b2 : (et == "PaymentCompleted") = false := beq_eq_false_iff_ne.mpr h1
        have b3 : (et == "PaymentFailed") = false := beq_eq_false_iff_ne.mpr h2
        have b4 : (et == "PaymentCancelled") = false := beq_eq_false_iff_ne.mpr h3
        have b5 : (et == "PaymentRefunded") = false := beq_eq_false_iff_ne.mpr e5
        unfold OutboxPublisherService.getTopicForEventType
        simp [List.lookup, b1, b2, b3, b4, b5, jsOrNull]
  · intro htopic
    unfold OutboxPublisherService.publishEvent
    rw [htopic]

/-- Witness for C4: the amended theorem at the concrete unroutable record
and at the concrete foreign event type Foo. -/
theorem C4_witness :
    OutboxPublisherService.publishEvent sendOk [evUnknown] [] 9 evUnknown =
      (OutboxService.incrementRetryCount [evUnknown] evUnknown.id
        ("Unknown event type: " ++ evUnknown.eventType), [], false) ∧
    OutboxPublisherService.getTopicForEventType "Foo" = none :=
  ⟨(C4_publisher_routing sendOk [evUnknown] [] 9 evUnknown).2.2.2.2 (by rfl),
    (C4_publisher_routing sendOk [] [] 0 evUnknown).2.2.2.1 "Foo"
      (by decide) (by decide) (by decide)⟩

/-- Counterexample to C5: a valid (accepted) ZaloPay callback whose payment
is missing from the store is answered with HTTP 400 and a ValidationError
body by the lambda webhook handler — the provider is not acknowledged with
HTTP 200 and the adapter response. -/
theorem C5_counterexample :
    handleWebhookZalopay hmacConcat zaloDecodeId "K2" [] [] "ob1" 9
        { data := "251010_o1", mac := "K2/251010_o1", type := 1 } =
      ({ statusCode := 400,
         body := .err "ValidationError" "Payment not found for order o1" }, [], []) ∧
    (400 : Int) ≠ 200 :=
  ⟨by rfl, by decide⟩

/-- C5 amended: the webhook handler answers HTTP 200 with the
adapter-supplied body whenever the adapter rejects the callback, and it
mutates no state on a missing payment; but when an accepted callback
references a payment absent from the store, the handler answers HTTP 400
with a ValidationError body (`Payment not found for order <orderCode>`)
instead of acknowledging the provider. -/
theorem C5_webhook_response
    (hmacSHA256Hex : String → String → String)
    (jsonDecodeZalo : String → Option ZalopayCallbackData)
    (key2 : String) (db : PaymentsDB) (outbox : OutboxDB)
    (newOutboxId : String) (now : Int) (body : ZalopayCallbackBody) :
    ((zalopayHandleCallbackLambda hmacSHA256Hex jsonDecodeZalo key2 body).success = false →
      handleWebhookZalopay hmacSHA256Hex jsonDecodeZalo key2 db outbox newOutboxId now body =
        ({ statusCode := 200,
           body := .zalo (zalopayHandleCallbackLambda hmacSHA256Hex jsonDecodeZalo key2 body).response },
          db, outbox)) ∧
    (∀ d, (zalopayHandleCallbackLambda hmacSHA256Hex jsonDecodeZalo key2 body).success = true →
      jsonDecodeZalo body.data = some d →
      db.find? (fun q => q.orderCode = extractOrderCode d.app_trans_id) = none →
      handleWebhookZalopay hmacSHA256Hex jsonDecodeZalo key2 db outbox newOutboxId now body =
        ({ statusCode := 400,
           body := .err "ValidationError"
             ("Payment not found for order " ++ extractOrderCode d.app_trans_id) },
          db, outbox)) := by
  constructor
  · intro hfail
    unfold handleWebhookZalopay
    dsimp only
    rw [hfail, if_pos rfl]
  · intro d hsucc hdec hmiss
    unfold handleWebhookZalopay
    dsimp only
    rw [hsucc, if_neg (by simp), hdec]
    dsimp only
    rw [hmiss]
    dsimp only
    rfl

/-- Witness for C5: the amended theorem at a concrete rejected callback
(bad MAC, answered 200) and at a concrete accepted callback with an empty
payments table (answered 400). -/
theorem C5_witness :
    handleWebhookZalopay hmacConcat zaloDecodeId "K2" [] [] "ob1" 9
        { data := "251010_o1", mac := "BAD", type := 1 } =
      ({ statusCode := 200,
         body := .zalo (zalopayHandleCallbackLambda hmacConcat zaloDecodeId "K2"
           { data := "251010_o1", mac := "BAD", type := 1 }).response },
        [], []) ∧
    handleWebhookZalopay hmacConcat zaloDecodeId "K2" [] [] "ob2" 9
        { data := "251010_o1", mac := "K2/251010_o1", type := 1 } =
      ({ statusCode := 400,
         body := .err "ValidationError"
           ("Payment not found for order " ++
             extractOrderCode ("251010_o1" : String)) }, [], []) :=
  ⟨(C5_webhook_response hmacConcat zaloDecodeId "K2" [] [] "ob1" 9
      { data := "251010_o1", mac := "BAD", type := 1 }).1 (by decide),
    (C5_webhook_response hmacConcat zaloDecodeId "K2" [] [] "ob2" 9
      { data := "251010_o1", mac := "K2/251010_o1", type := 1 }).2
      { app_trans_id := "251010_o1" } (by decide) rfl (by decide)⟩

/-- C8: the cleanup deletes exactly the published rows whose publishedAt is
strictly older than the cutoff: afterwards no published-and-old row remains,
every row that is unpublished or not old enough survives, and nothing not
present before can appear. -/
theorem C8_cleanup_retention (outbox : OutboxDB) (cutoffDate : Int) :
    (∀ r ∈ (OutboxService.deleteOldPublishedEvents outbox cutoffDate).1,
      ¬(r.published = true ∧ ∃ t, r.publishedAt = some t ∧ t < cutoffDate)) ∧
    (∀ r ∈ outbox,
      (r.published = false ∨ ∀ t, r.publishedAt = some t → cutoffDate ≤ t) →
      r ∈ (OutboxService.deleteOldPublishedEvents outbox cutoffDate).1) ∧
    (∀ r ∈ (OutboxService.deleteOldPublishedEvents outbox cutoffDate).1,
      r ∈ outbox) := by
  unfold OutboxService.deleteOldPublishedEvents
  refine ⟨?_, ?_, ?_⟩
  · intro r hr
    rw [List.mem_filter] at hr
    intro hbad
    obtain ⟨hpub, t, hat, hlt⟩ := hbad
    have hcond := hr.2
    rw [hpub, hat] at hcond
    simp [hlt] at hcond
  · intro r hr hkeep
    rw [List.mem_filter]
    refine ⟨hr, ?_⟩
    cases hkeep with
    | inl hunpub => simp [hunpub]
    | inr hle =>
      cases hat : r.publishedAt with
      | none => simp [hat]
      | some t =>
        have := hle t hat
        simp [hat, not_lt_of_ge this]
  · intro r hr
    rw [List.mem_filter] at hr
    exact hr.1

/-- An old published outbox row (publishedAt 0, before the cutoff 10). -/
def obPublishedOld : OutboxRec :=
  { id := "obo", aggregateId := "p1", aggregateType := "Payment",
    eventType := "PaymentCompleted", payload := [], published := true,
    publishedAt := some 0, retryCount := 0, lastError := none, createdAt := 0 }

/-- An unpublished outbox row. -/
def obUnpub : OutboxRec :=
  { id := "obu", aggregateId := "p2", aggregateType := "Payment",
    eventType := "PaymentFailed", payload := [], published := false,
    publishedAt := none, retryCount := 2, lastError := some "broker down",
    createdAt := 1 }

/-- Witness for C8: the theorem applied at a concrete two-row table with
cutoff 10 — the unpublished row survives and no stale published row
remains. -/
theorem C8_witness :
    obUnpub ∈ (OutboxService.deleteOldPublishedEvents [obPublishedOld, obUnpub] 10).1 ∧
    (∀ r ∈ (OutboxService.deleteOldPublishedEvents [obPublishedOld, obUnpub] 10).1,
      ¬(r.published = true ∧ ∃ t, r.publishedAt = some t ∧ t < 10)) :=
  ⟨(C8_cleanup_retention [obPublishedOld, obUnpub] 10).2.1 obUnpub
      (by simp) (Or.inl rfl),
    (C8_cleanup_retention [obPublishedOld, obUnpub] 10).1⟩

/-- C9 evidence: looking up a missing idempotency key fails with
RpcBusinessException(PermissionDenied), whose business code is 20403 and
whose message is `20403 - Permission denied` — not the PaymentNotFound
code 20000 that the spec assigns to this situation. -/
theorem C9_findByIdempotencyKey_permission_denied :
    PaymentService.findByIdempotencyKey [] "missing-key" =
      .error (mkRpcBusinessException .PermissionDenied) ∧
    (mkRpcBusinessException ErrorCodeEnum.PermissionDenied).message =
      "20403 - Permission denied" ∧
    ErrorCodeEnum.PermissionDenied.code = 20403 ∧
    ErrorCodeEnum.PaymentNotFound.code = 20000 ∧
    (20403 : Nat) ≠ 20000 :=
  ⟨rfl, by decide, rfl, rfl, by decide⟩
